import Mathlib

/-!
Verification development for the jeepney D-Bus client library
(src/jeepney/).  Python source is shallowly embedded: pure functions
become Lean functions, mutable objects become explicit state passing,
and fallible code returns Except/Option.  Classes absent from src/
(jeepney.low_level) are modelled from the specification and marked as
such in their doc comments.
-/

namespace Jeepney

/-! ## Data model

The Message/Header record types live in jeepney/low_level.py, which is
not part of src/; they are modelled from the specification, section 3. -/

/-- Modelled from the spec: jeepney.low_level.MessageType (absent from src/).
Message type codes 1=call, 2=return, 3=error, 4=signal. -/
inductive MessageType where
  | method_call
  | method_return
  | error
  | signal
deriving DecidableEq, Repr

/-- Modelled from the spec: the type string of a message
(signal, method_call, method_return or error), as used by the match-rule
engine's `type` condition. -/
def MessageType.name : MessageType → String
  | .method_call => "method_call"
  | .method_return => "method_return"
  | .error => "error"
  | .signal => "signal"

/-- Modelled from the spec: jeepney.low_level.HeaderFields (absent from src/):
the closed set of header-field tags. -/
inductive HeaderFields where
  | path
  | interface
  | member
  | error_name
  | reply_serial
  | destination
  | sender
  | signature
  | unix_fds
deriving DecidableEq, Repr

/-- A value stored in a header field: strings and object paths, or the
integers used for reply_serial / unix_fds. -/
inductive FieldVal where
  | str (s : String)
  | int (n : Int)
deriving DecidableEq, Repr

/-- A decoded D-Bus body value; the claims only need to distinguish strings
from non-string values, so the rest of the value lattice is one tag. -/
inductive DBusValue where
  | str (s : String)
  | other (tag : Nat)
deriving DecidableEq, Repr

/-- Python dict assignment d[k] = v on an insertion-ordered assoc list:
replace in place when the key is present, append otherwise. -/
def dictSet (d : List (HeaderFields × FieldVal)) (k : HeaderFields) (v : FieldVal) :
    List (HeaderFields × FieldVal) :=
  match d with
  | [] => [(k, v)]
  | (k0, v0) :: rest => if k0 = k then (k, v) :: rest else (k0, v0) :: dictSet rest k v

/-- Python dict lookup d.get(k) on an insertion-ordered assoc list. -/
def dictGet (d : List (HeaderFields × FieldVal)) (k : HeaderFields) : Option FieldVal :=
  match d with
  | [] => none
  | (k0, v0) :: rest => if k0 = k then some v0 else dictGet rest k

/-- Modelled from the spec: jeepney.low_level.Endianness (absent from src/). -/
inductive Endianness where
  | little
  | big
deriving DecidableEq, Repr

/-- Modelled from the spec: jeepney.low_level.Header (absent from src/):
an ordered record of the fixed header prefix plus the header-field map. -/
structure Header where
  endianness : Endianness
  message_type : MessageType
  flags : Nat
  protocol_version : Nat
  body_length : Int
  serial : Int
  fields : List (HeaderFields × FieldVal)
deriving DecidableEq, Repr

/-- Modelled from the spec: jeepney.low_level.Message (absent from src/):
header plus decoded body values. -/
structure Message where
  header : Header
  body : List DBusValue
deriving DecidableEq, Repr

/-! ## MatchRule construction (src/jeepney/bus_messages.py, lines 62-112) -/

/-- The keyword arguments of MatchRule.__init__; None is `none` and a Python
string is `some`. -/
structure MatchRuleArgs where
  type : Option String
  sender : Option String
  interface : Option String
  member : Option String
  path : Option String
  path_namespace : Option String
  destination : Option String
  eavesdrop : Bool
deriving DecidableEq, Repr

/-- Python truthiness of an optional string: `if type:` is taken iff the
argument is a non-None, non-empty string. -/
def pyTruthy : Option String → Bool
  | none => false
  | some s => !s.isEmpty

/-- Embeds MatchRule.__init__ (src/jeepney/bus_messages.py lines 72-91).
Each of the eight `if` statements assigns one distinct literal key into the
fresh conditions dict, so the insertion-ordered dict is the concatenation of
the taken branches in source order.  The body contains no raise statement. -/
def matchRuleConditions (a : MatchRuleArgs) : List (String × String) :=
  (if pyTruthy a.type then [("type", a.type.getD "")] else [])
  ++ (if pyTruthy a.sender then [("sender", a.sender.getD "")] else [])
  ++ (if pyTruthy a.interface then [("interface", a.interface.getD "")] else [])
  ++ (if pyTruthy a.member then [("member", a.member.getD "")] else [])
  ++ (if pyTruthy a.path then [("path", a.path.getD "")] else [])
  ++ (if pyTruthy a.path_namespace then [("path_namespace", a.path_namespace.getD "")] else [])
  ++ (if pyTruthy a.destination then [("destination", a.destination.getD "")] else [])
  ++ (if a.eavesdrop then [("eavesdrop", "true")] else [])

/-- A Python exception raised by the embedded code. -/
inductive PyErr where
  | valueError (msg : String)
  | typeError (msg : String)
  | runtimeError (msg : String)
  | attributeError (msg : String)
  | osError (msg : String)
  | keyError
  | timeoutError
  | noReplyError (msg : String)
deriving DecidableEq, Repr

/-- Embeds constructing a MatchRule: __init__ contains no raise statement on
any path, so construction always succeeds with the conditions dict above. -/
def matchRuleInit (a : MatchRuleArgs) : Except PyErr (List (String × String)) :=
  .ok (matchRuleConditions a)

/-- The quote character, written by code point to keep it out of literals. -/
def quoteChar : Char := Char.ofNat 39

/-- The backslash character. -/
def backslashChar : Char := Char.ofNat 92

/-- Character-level form of the value escaping in MatchRule.serialise: the
replace pattern is the single quote character, so each occurrence becomes
backslash-quote. -/
def quoteEscapeList : List Char → List Char
  | [] => []
  | c :: rest =>
    if c = quoteChar then backslashChar :: quoteChar :: quoteEscapeList rest
    else c :: quoteEscapeList rest

/-- Embeds the value escaping in MatchRule.serialise:
v.replace(quote, backslash + quote). -/
def quoteEscape (v : String) : String :=
  String.mk (quoteEscapeList v.data)

/-- Insert a pair into a key-sorted list of pairs. -/
def insertSorted (p : String × String) : List (String × String) → List (String × String)
  | [] => [p]
  | q :: rest => if q.1 < p.1 then q :: insertSorted p rest else p :: q :: rest

/-- Embeds sorted(self.conditions.items()): keys in the conditions dict are
distinct, so sorting the pairs by key matches Python's pair ordering. -/
def sortPairs : List (String × String) → List (String × String)
  | [] => []
  | p :: rest => insertSorted p (sortPairs rest)

/-- Embeds MatchRule.serialise (src/jeepney/bus_messages.py lines 108-112) up
to the final comma-join: one key=value part per condition, keys sorted. -/
def serialiseParts (c : List (String × String)) : List String :=
  (sortPairs c).map (fun kv => kv.1 ++ "=" ++ quoteEscape kv.2)

/-- Embeds MatchRule.serialise: the comma-joined parts. -/
def matchRuleSerialise (c : List (String × String)) : String :=
  String.intercalate "," (serialiseParts c)

/-- The keys recorded in a conditions dict. -/
def condKeys (c : List (String × String)) : List String :=
  c.map Prod.fst

/-- Replace a Some-empty-string argument by None, leaving others unchanged. -/
def emptyToNone : Option String → Option String
  | none => none
  | some s => if s.isEmpty then none else some s

/-- The MatchRule keyword arguments with every empty-string value replaced by
None (eavesdrop untouched). -/
def normEmptyArgs (a : MatchRuleArgs) : MatchRuleArgs :=
  { type := emptyToNone a.type
    sender := emptyToNone a.sender
    interface := emptyToNone a.interface
    member := emptyToNone a.member
    path := emptyToNone a.path
    path_namespace := emptyToNone a.path_namespace
    destination := emptyToNone a.destination
    eavesdrop := a.eavesdrop }

/-! ## Connection serial assignment
(src/jeepney/io/blocking.py lines 46 and 67-73;
src/jeepney/io/threading.py lines 30 and 46-51) -/

/-- The next(c) step of itertools.count: yield the current value and advance
by one.  Python integers are unbounded, so the state is a Nat. -/
def countNext (state : Nat) : Nat × Nat := (state, state + 1)

/-- Connection state relevant to serial assignment: the itertools.count
object created as count(start=1), plus the serials written to the wire in
order. -/
structure ConnSerialState where
  outgoing_serial : Nat
  sentSerials : List Nat
deriving DecidableEq, Repr

/-- A fresh connection: outgoing_serial = count(start=1), nothing sent. -/
def freshConn : ConnSerialState := ⟨1, []⟩

/-- Embeds DBusConnection.send for the serial logic (identical in the
blocking and threading adapters): if serial is None it is drawn with
next(self.outgoing_serial); message.serialise(serial=serial) is then written
to the socket, recorded here as the serial used. -/
def connSend (st : ConnSerialState) (serial : Option Nat) : ConnSerialState × Nat :=
  match serial with
  | some s => ({ st with sentSerials := st.sentSerials ++ [s] }, s)
  | none =>
    let p := countNext st.outgoing_serial
    ({ outgoing_serial := p.2, sentSerials := st.sentSerials ++ [p.1] }, p.1)

/-- The connection state after k successive send calls with no explicit
serial. -/
def connAfterSends : Nat → ConnSerialState
  | 0 => freshConn
  | k + 1 => (connSend (connAfterSends k) none).1

/-- The serial assigned by auto-serial send number k+1 (counting from 0). -/
def autoSerial (k : Nat) : Nat := (connSend (connAfterSends k) none).2

/-! ## SASL authentication parser (src/jeepney/auth.py lines 65-81)

Byte strings are modelled as lists of characters (the protocol is ASCII). -/

/-- SASLParser.__init__ state: buffer, authenticated flag and error slot. -/
structure SASLParser where
  buffer : List Char
  authenticated : Bool
  error : Option (List Char)
deriving DecidableEq, Repr

/-- A fresh SASLParser (buffer empty, not authenticated, no error). -/
def saslInit : SASLParser := ⟨[], false, none⟩

/-- Split a byte string at the first CRLF: returns (part before, part after),
or none when it contains no CRLF.  This is both the b'\r\n'-in-data test
(isSome) and buffer.split(b'\r\n', 1) (the some case; the none case makes the
two-element unpacking in feed raise ValueError). -/
def crlfSplitOnce : List Char → Option (List Char × List Char)
  | [] => none
  | [_] => none
  | c :: d :: rest =>
    if c = '\r' ∧ d = '\n' then some ([], rest)
    else (crlfSplitOnce (d :: rest)).map (fun pr => (c :: pr.1, pr.2))

/-- Embeds SASLParser.process_line (src/jeepney/auth.py lines 71-75): a line
starting OK-space authenticates; ANY other line, blank lines included, is
assigned to self.error. -/
def process_line (p : SASLParser) (line : List Char) : SASLParser :=
  if ['O', 'K', ' '].isPrefixOf line then { p with authenticated := true }
  else { p with error := some line }

/-- The while loop of SASLParser.feed.  NOTE the loop condition tests the
chunk just fed (data), not self.buffer, exactly as the source does; the
condition over data is therefore invariant across iterations.  A some result
is the parser state when the loop exits; none is the ValueError raised when
buffer.split finds no CRLF and the two-element unpacking fails. -/
def feedLoop (dataHasCRLF : Bool) (p : SASLParser) : Option SASLParser :=
  if dataHasCRLF ∧ ¬ p.authenticated then
    match hs : crlfSplitOnce p.buffer with
    | none => none
    | some (line, rest) => feedLoop dataHasCRLF (process_line { p with buffer := rest } line)
  else
    some p
termination_by p.buffer.length
decreasing_by
  have hlen : ∀ l : List Char, ∀ a b, crlfSplitOnce l = some (a, b) →
      l.length = a.length + b.length + 2 := by
    intro l
    induction l with
    | nil => intro a b h; simp [crlfSplitOnce] at h
    | cons c rest2 ih =>
      intro a b h
      cases rest2 with
      | nil => simp [crlfSplitOnce] at h
      | cons d rest3 =>
        simp only [crlfSplitOnce] at h
        split at h
        · rw [Option.some.injEq, Prod.mk.injEq] at h
          obtain ⟨rfl, rfl⟩ := h
          simp
        · rw [Option.map_eq_some'] at h
          obtain ⟨pr, hpr, heq⟩ := h
          rw [Prod.mk.injEq] at heq
          obtain ⟨rfl, rfl⟩ := heq
          have := ih pr.1 pr.2 (by rw [hpr])
          simp only [List.length_cons] at this ⊢
          omega
  have := hlen p.buffer line rest hs
  simp only [process_line]
  split <;> simp <;> omega

/-- Embeds SASLParser.feed (src/jeepney/auth.py lines 77-81): append the
chunk to the buffer, then run the processing loop, whose condition tests the
chunk. -/
def SASLParser.feed (p : SASLParser) (data : List Char) : Option SASLParser :=
  feedLoop (crlfSplitOnce data).isSome { p with buffer := p.buffer ++ data }

/-- Feed a sequence of chunks one feed call at a time, propagating a crash. -/
def feedAll (p : SASLParser) : List (List Char) → Option SASLParser
  | [] => some p
  | chunk :: rest => (p.feed chunk).bind (fun q => feedAll q rest)

/-! ## WrappedFD one-shot file-descriptor holder (src/jeepney/fds.py lines 6-97)

The _fd slot is an Int: a real descriptor when >= 0, the sentinel
_CLOSED = -1 after closing, _CONVERTED = -2 after a to_* conversion. -/

/-- The _CLOSED sentinel stored in the _fd slot. -/
def WFD_CLOSED : Int := -1

/-- The _CONVERTED sentinel stored in the _fd slot. -/
def WFD_CONVERTED : Int := -2

/-- The observable effect of one WrappedFD method call: the new slot value,
the descriptors passed to os.close during the call, whether a
ResourceWarning was issued, and the exception raised if any. -/
structure FDEffect where
  state : Int
  closed : List Int
  warned : Bool
  raised : Option PyErr
deriving DecidableEq, Repr

/-- Embeds WrappedFD.close (src/jeepney/fds.py lines 27-42): no-op when the
slot is _CLOSED, RuntimeError when it is _CONVERTED, otherwise os.close the
held descriptor and store _CLOSED. -/
def wfdClose (s : Int) : FDEffect :=
  if s = WFD_CLOSED then ⟨s, [], false, none⟩
  else if s = WFD_CONVERTED then
    ⟨s, [], false, some (.runtimeError "close after converting")⟩
  else ⟨WFD_CLOSED, [s], false, none⟩

/-- Embeds WrappedFD.to_raw_fd (src/jeepney/fds.py lines 62-69): store
_CONVERTED and return whatever the slot held — the source performs no state
check, so this succeeds from every state. -/
def wfdToRawFd (s : Int) : FDEffect × Int :=
  (⟨WFD_CONVERTED, [], false, none⟩, s)

/-- Embeds WrappedFD.to_file (src/jeepney/fds.py lines 71-84): the builtin
open(fd, ...) raises ValueError for a negative fd — which is the case exactly
when the wrapper is closed or converted — before the slot is touched; on
success the slot becomes _CONVERTED and the file object owns the fd. -/
def wfdToFile (s : Int) : FDEffect :=
  if s < 0 then ⟨s, [], false, some (.valueError "negative file descriptor")⟩
  else ⟨WFD_CONVERTED, [], false, none⟩

/-- Embeds WrappedFD.to_socket (src/jeepney/fds.py lines 86-97):
socket.socket(fileno=fd) raises OSError for a negative descriptor, leaving
the wrapper unchanged; on success the slot becomes _CONVERTED. -/
def wfdToSocket (s : Int) : FDEffect :=
  if s < 0 then ⟨s, [], false, some (.osError "bad file descriptor")⟩
  else ⟨WFD_CONVERTED, [], false, none⟩

/-- Embeds WrappedFD.__del__ (src/jeepney/fds.py lines 50-56): when the slot
still holds a real descriptor, issue a ResourceWarning and call close(). -/
def wfdDel (s : Int) : FDEffect :=
  if 0 ≤ s then ⟨WFD_CLOSED, [s], true, none⟩ else ⟨s, [], false, none⟩

/-- The WrappedFD methods that change the wrapper state. -/
inductive FDOp where
  | close
  | to_raw_fd
  | to_file
  | to_socket
  | finalize
deriving DecidableEq, Repr

/-- Dispatch one operation on the slot. -/
def fdStep (s : Int) : FDOp → FDEffect
  | .close => wfdClose s
  | .to_raw_fd => (wfdToRawFd s).1
  | .to_file => wfdToFile s
  | .to_socket => wfdToSocket s
  | .finalize => wfdDel s

/-- Run a sequence of operations, collecting every descriptor the wrapper
passes to os.close. -/
def runFDOps (s : Int) : List FDOp → Int × List Int
  | [] => (s, [])
  | op :: rest =>
    let e := fdStep s op
    let r := runFDOps e.state rest
    (r.1, e.closed ++ r.2)

/-! ## Router reply futures and receiver termination
(src/jeepney/integrate/asyncio.py, src/jeepney/integrate/trio.py,
src/jeepney/io/threading.py) -/

/-- The lifecycle of a one-shot reply future. -/
inductive FutState where
  | pending
  | result (m : Message)
  | failed (e : PyErr)
deriving DecidableEq, Repr

/-- True when a future was woken with a NoReplyError. -/
def futIsNoReplyFailure : FutState → Bool
  | .failed (.noReplyError _) => true
  | _ => false

/-- Embeds the finally block of DBusRouter._receiver in the asyncio adapter
(src/jeepney/integrate/asyncio.py lines 178-183): swap the reply-future map
out and call fut.set_exception(NoReplyError(...)) on each future in it.
asyncio raises InvalidStateError from set_exception on a future that is
already done (modelled none); each pending future is failed with the
NoReplyError. -/
def asyncioReceiverWakeAll (futs : List (Nat × FutState)) :
    Option (List (Nat × FutState)) :=
  futs.mapM (fun sf =>
    match sf.2 with
    | .pending => some (sf.1, FutState.failed (.noReplyError "Reply receiver stopped"))
    | _ => none)

/-- Embeds the finally block of DBusRequester._receiver in the trio adapter
(src/jeepney/integrate/trio.py lines 232-239): swap the futures map out and
call fut.set(Error(NoReplyError(...))) on each; the custom trio Future
stores the outcome unconditionally. -/
def trioReceiverWakeAll (futs : List (Nat × FutState)) : List (Nat × FutState) :=
  futs.map (fun sf => (sf.1, FutState.failed (.noReplyError "Reply receiver stopped")))

/-- Embeds DBusRouter._receiver of the threading adapter
(src/jeepney/io/threading.py lines 186-192): the loop body catches
ReceiveStopped with a bare pass and returns — no code touches the
ReplyMatcher futures (ReplyMatcher.drop_all exists in
src/jeepney/integrate/utils.py but is never called), so the map of pending
reply futures is left exactly as it was. -/
def threadingReceiverStop (futs : List (Nat × FutState)) : List (Nat × FutState) :=
  futs

/-! ## send_and_get_reply entry checks (claim C5) -/

/-- State of the asyncio DBusRouter seen by send_and_get_reply before it
awaits: the shared serial counter, whether the receiver task has finished,
and the registered reply futures. -/
structure AsyncioRouterState where
  outgoing_serial : Nat
  rcv_task_done : Bool
  reply_futures : List (Nat × FutState)
deriving DecidableEq, Repr

/-- Embeds DBusRouter.send_and_get_reply of the asyncio adapter
(src/jeepney/integrate/asyncio.py lines 111-128) up to the await of the
reply future: a non-method_call message is rejected with TypeError before
anything is sent; a finished receiver task gives RuntimeError; otherwise a
serial is drawn, a pending future registered under it, and the message sent
with that serial.  Returns the messages sent (paired with serials) and the
outcome. -/
def asyncioSendAndGetReplyStart (st : AsyncioRouterState) (m : Message) :
    List (Message × Nat) × Except PyErr (AsyncioRouterState × Nat) :=
  if m.header.message_type ≠ MessageType.method_call then
    ([], .error (.typeError "Only method call messages have replies"))
  else if st.rcv_task_done then
    ([], .error (.runtimeError "Receiver task is not running"))
  else
    let p := countNext st.outgoing_serial
    ([(m, p.1)],
      .ok ({ st with
              outgoing_serial := p.2
              reply_futures := st.reply_futures ++ [(p.1, .pending)] }, p.1))

/-- The reply_serial header field of a message, with the Python default -1
used by the dispatch loops. -/
def getReplySerial (msg : Message) : Int :=
  match dictGet msg.header.fields .reply_serial with
  | some (.int n) => n
  | _ => -1

/-- The receive loop inside the blocking send_and_get_reply: pull incoming
messages one at a time; one whose reply_serial equals our serial is
returned, every other one is dispatched (collected here in order); an
exhausted queue stands for the receive that never completes. -/
def blockingReplyScan (serial : Nat) : List Message → List Message × Except PyErr Message
  | [] => ([], .error .timeoutError)
  | msg :: rest =>
    if getReplySerial msg = (serial : Int) then ([], .ok msg)
    else
      let r := blockingReplyScan serial rest
      (msg :: r.1, r.2)

/-- Embeds DBusConnection.send_and_get_reply of the blocking adapter
(src/jeepney/io/blocking.py lines 116-145) against a queue of incoming
messages: with NO message-type check, a serial is drawn and the message sent
immediately; then the receive loop runs.  Returns the messages sent, the
non-reply messages dispatched to filters, and the outcome. -/
def blockingSendAndGetReply (ctr : Nat) (m : Message) (incoming : List Message) :
    List (Message × Nat) × List Message × Except PyErr Message :=
  let p := countNext ctr
  ([(m, p.1)], blockingReplyScan p.1 incoming)

/-- Embeds DBusRouter.send_and_get_reply of the threading adapter
(src/jeepney/io/threading.py lines 141-146) up to the future wait: with NO
message-type check, a serial is drawn from the shared connection counter, a
future registered under it, and the message sent with that serial.  Returns
the messages sent, the new counter state and the futures map. -/
def threadingSendAndGetReplyStart (ctr : Nat) (futs : List (Nat × FutState)) (m : Message) :
    List (Message × Nat) × Nat × List (Nat × FutState) :=
  let p := countNext ctr
  ([(m, p.1)], p.2, futs ++ [(p.1, FutState.pending)])

/-- A concrete signal message (no fields, empty body). -/
def signalMsg : Message :=
  ⟨⟨Endianness.little, MessageType.signal, 0, 1, -1, -1, []⟩, []⟩

/-! ## Filter registration (claim C9)
(src/jeepney/integrate/asyncio.py lines 130-143;
src/jeepney/integrate/blocking.py lines 144-157) -/

/-- Python dict lookup on a Nat-keyed assoc list. -/
def dictGetN {α : Type} (d : List (Nat × α)) (k : Nat) : Option α :=
  match d with
  | [] => none
  | (k0, v0) :: rest => if k0 = k then some v0 else dictGetN rest k

/-- Python dict assignment on a Nat-keyed assoc list. -/
def dictSetN {α : Type} (d : List (Nat × α)) (k : Nat) (v : α) : List (Nat × α) :=
  match d with
  | [] => [(k, v)]
  | (k0, v0) :: rest => if k0 = k then (k, v) :: rest else (k0, v0) :: dictSetN rest k v

/-- Python dict.pop(k): the stored value and the dict without that key, or
none (KeyError) when the key is absent. -/
def dictPopN {α : Type} (d : List (Nat × α)) (k : Nat) : Option (α × List (Nat × α)) :=
  match dictGetN d k with
  | none => none
  | some v => some (v, d.filter (fun p => p.1 ≠ k))

/-- Filter registration state shared by the adapters: the filters dict
mapping filter id to (rule, channel), and the itertools.count() of filter
ids (starting at 0). -/
structure FilterState (R C : Type) where
  filters : List (Nat × R × C)
  filter_ids : Nat

/-- Embeds add_filter (identical in src/jeepney/integrate/asyncio.py lines
130-139 and src/jeepney/integrate/blocking.py lines 144-153): draw the next
filter id, store (rule, channel) under it, return the id. -/
def addFilter {R C : Type} (st : FilterState R C) (rule : R) (ch : C) :
    FilterState R C × Nat :=
  let fid := st.filter_ids
  ({ filters := dictSetN st.filters fid (rule, ch), filter_ids := fid + 1 }, fid)

/-- Embeds DBusConnection.remove_filter of the blocking adapter
(src/jeepney/integrate/blocking.py lines 155-157):
self._filters.pop(filter_id)[1] — remove the registration and hand back its
channel; KeyError when the id is unknown. -/
def blockingRemoveFilter {R C : Type} (st : FilterState R C) (fid : Nat) :
    Except PyErr (FilterState R C × C) :=
  match dictPopN st.filters fid with
  | none => .error .keyError
  | some (rc, rest) => .ok ({ st with filters := rest }, rc.2)

/-- Embeds DBusRouter.remove_filter of the asyncio adapter
(src/jeepney/integrate/asyncio.py lines 141-143).  The source reads
`return self._filter_ids.pop(filter_id)[1]`: it pops from self._filter_ids —
the itertools.count object — instead of the self._filters dict.  An
itertools.count has no attribute pop, so the call raises AttributeError
unconditionally and the filters dict is left untouched. -/
def asyncioRemoveFilter {R C : Type} (_st : FilterState R C) (_fid : Nat) :
    Except PyErr (FilterState R C × C) :=
  .error (.attributeError "count object has no attribute pop")

/-! ## Message constructors (src/jeepney/wrappers.py lines 17-77) -/

/-- Embeds DBusAddress (src/jeepney/wrappers.py lines 17-28): the triple of
object path, optional bus name and optional interface. -/
structure DBusAddress where
  object_path : String
  bus_name : Option String
  interface : Option String
deriving DecidableEq, Repr

/-- Embeds new_header (src/jeepney/wrappers.py lines 35-37):
Header(little, msg_type, flags=0, protocol_version=1, body_length=-1,
serial=-1, fields={}). -/
def new_header (msg_type : MessageType) : Header :=
  ⟨Endianness.little, msg_type, 0, 1, -1, -1, []⟩

/-- Embeds new_method_call (src/jeepney/wrappers.py lines 39-51): set path;
require bus_name (ValueError when None); set destination, the interface when
present, member, and the signature when present. -/
def new_method_call (remote_obj : DBusAddress) (method : String)
    (signature : Option String) (body : List DBusValue) : Except PyErr Message :=
  let header := new_header MessageType.method_call
  let fields := dictSet header.fields .path (.str remote_obj.object_path)
  match remote_obj.bus_name with
  | none => .error (.valueError "bus_name cannot be None for method calls")
  | some bn =>
    let fields := dictSet fields .destination (.str bn)
    let fields := match remote_obj.interface with
      | some i => dictSet fields .interface (.str i)
      | none => fields
    let fields := dictSet fields .member (.str method)
    let fields := match signature with
      | some sig => dictSet fields .signature (.str sig)
      | none => fields
    .ok ⟨{ header with fields := fields }, body⟩

/-- Embeds new_method_return (src/jeepney/wrappers.py lines 53-58): a
method_return whose reply_serial is the parent message's serial. -/
def new_method_return (parent_msg : Message) (signature : Option String)
    (body : List DBusValue) : Message :=
  let header := new_header MessageType.method_return
  let fields := dictSet header.fields .reply_serial (.int parent_msg.header.serial)
  let fields := match signature with
    | some sig => dictSet fields .signature (.str sig)
    | none => fields
  ⟨{ header with fields := fields }, body⟩

/-- Embeds new_error (src/jeepney/wrappers.py lines 60-66): an error message
with the parent's serial as reply_serial plus the error name. -/
def new_error (parent_msg : Message) (error_name : String)
    (signature : Option String) (body : List DBusValue) : Message :=
  let header := new_header MessageType.error
  let fields := dictSet header.fields .reply_serial (.int parent_msg.header.serial)
  let fields := dictSet fields .error_name (.str error_name)
  let fields := match signature with
    | some sig => dictSet fields .signature (.str sig)
    | none => fields
  ⟨{ header with fields := fields }, body⟩

/-- Embeds new_signal (src/jeepney/wrappers.py lines 68-77): set path;
require the emitter's interface (ValueError when None); set interface,
member, and the signature when present. -/
def new_signal (emitter : DBusAddress) (signal : String)
    (signature : Option String) (body : List DBusValue) : Except PyErr Message :=
  let header := new_header MessageType.signal
  let fields := dictSet header.fields .path (.str emitter.object_path)
  match emitter.interface with
  | none => .error (.valueError "interface cannot be None for signals")
  | some i =>
    let fields := dictSet fields .interface (.str i)
    let fields := dictSet fields .member (.str signal)
    let fields := match signature with
      | some sig => dictSet fields .signature (.str sig)
      | none => fields
    .ok ⟨{ header with fields := fields }, body⟩

/-! ## Match-rule engine (claim C1)

MatchFilters dispatch (src/jeepney/integrate/utils.py lines 11-14 and the
filter loops of the io adapters) calls rule.matches(message), but the
MatchRule.matches method itself is not under src/; it is modelled here from
the specification, section 4.8, as a predicate over the structured rule the
spec describes in section 3. -/

/-- The kind of an argument condition: argN (string), argNpath, or
arg0namespace. -/
inductive ArgKind where
  | string
  | path
  | nspace
deriving DecidableEq, Repr

/-- Modelled from the spec (section 3): a MatchRule as a set of optional
string conditions from the closed tag set plus (argno, kind, value)
argument conditions. -/
structure SpecMatchRule where
  type : Option String
  sender : Option String
  interface : Option String
  member : Option String
  path : Option String
  path_namespace : Option String
  destination : Option String
  argConds : List (Nat × ArgKind × String)

/-- Python startswith, at the character-list level. -/
def strIsPrefixOf (a b : String) : Bool := a.data.isPrefixOf b.data

/-- The string value of a header field; none when absent (or holding a
non-string, which no tagged field compared here does). -/
def getStrField (m : Message) (f : HeaderFields) : Option String :=
  match dictGet m.header.fields f with
  | some (.str s) => some s
  | _ => none

/-- Modelled from the spec (4.8): a set condition must equal the
corresponding header field. -/
def optCond (cond : Option String) (field : Option String) : Bool :=
  match cond with
  | none => true
  | some v => field == some v

/-- Modelled from the spec (4.8): the type condition must equal the
message's type string. -/
def typeCondB (cond : Option String) (mt : MessageType) : Bool :=
  match cond with
  | none => true
  | some t => mt.name == t

/-- Modelled from the spec (4.8): the path header equals the namespace or
extends it below a slash; the empty namespace matches only the root path. -/
def pathNsMatches (ns p : String) : Bool :=
  if ns = "" then p == "/"
  else p == ns || strIsPrefixOf (ns ++ "/") p

/-- The path_namespace condition applied to the optional path header. -/
def pathNsCondB (cond : Option String) (field : Option String) : Bool :=
  match cond with
  | none => true
  | some ns =>
    match field with
    | none => false
    | some p => pathNsMatches ns p

/-- One string extends another, with the remainder starting at a slash
(character-level check on the dropped remainder). -/
def slashExtends (pre whole : String) : Bool :=
  pre.data.isPrefixOf whole.data
    && (match whole.data.drop pre.data.length with
        | c :: _ => c == '/'
        | [] => false)

/-- Modelled from the spec (4.8): evaluate one argument condition against
the body; a missing or non-string argument fails the condition (it does not
error). -/
def argCondMatches (argno : Nat) (kind : ArgKind) (v : String)
    (body : List DBusValue) : Bool :=
  match body.get? argno with
  | some (.str s) =>
    (match kind with
     | .string => s == v
     | .path => s == v || slashExtends s v || slashExtends v s
     | .nspace => s == v || strIsPrefixOf (v ++ ".") s)
  | _ => false

/-- Modelled from the spec: MatchRule.matches — the predicate the filter
dispatch loops call on each message; absent from src/, built from the match
algorithm of section 4.8. -/
def SpecMatchRule.matches (r : SpecMatchRule) (m : Message) : Bool :=
  typeCondB r.type m.header.message_type
  && optCond r.sender (getStrField m .sender)
  && optCond r.destination (getStrField m .destination)
  && optCond r.interface (getStrField m .interface)
  && optCond r.member (getStrField m .member)
  && optCond r.path (getStrField m .path)
  && pathNsCondB r.path_namespace (getStrField m .path)
  && r.argConds.all (fun c => argCondMatches c.1 c.2.1 c.2.2 m.body)

/-- One argument condition of the reference truth table of claim C1. -/
def ArgCondRef (argno : Nat) (kind : ArgKind) (v : String)
    (body : List DBusValue) : Prop :=
  ∃ s, body.get? argno = some (.str s)
    ∧ (match kind with
       | ArgKind.string => s = v
       | ArgKind.path => s = v ∨ (∃ r, v = s ++ "/" ++ r) ∨ (∃ r, s = v ++ "/" ++ r)
       | ArgKind.nspace => s = v ∨ (∃ r, s = v ++ "." ++ r))

/-- The reference truth table of claim C1: every set condition among type,
sender, destination, interface, member must equal the corresponding header
field; path requires exact equality with the path header; path_namespace
requires the path header to equal the namespace or be a proper child of it;
and every argument condition must hold of the addressed body argument. -/
def MatchRef (r : SpecMatchRule) (m : Message) : Prop :=
  (∀ t, r.type = some t → m.header.message_type.name = t)
  ∧ (∀ v, r.sender = some v → getStrField m .sender = some v)
  ∧ (∀ v, r.destination = some v → getStrField m .destination = some v)
  ∧ (∀ v, r.interface = some v → getStrField m .interface = some v)
  ∧ (∀ v, r.member = some v → getStrField m .member = some v)
  ∧ (∀ p, r.path = some p → getStrField m .path = some p)
  ∧ (∀ ns, r.path_namespace = some ns → ∃ p, getStrField m .path = some p
      ∧ (if ns = "" then p = "/" else p = ns ∨ ∃ rest, p = ns ++ "/" ++ rest))
  ∧ (∀ c ∈ r.argConds, ArgCondRef c.1 c.2.1 c.2.2 m.body)

/-! ## Theorems -/

theorem conditionBlock_emptyToNone (x : Option String) (k : String) :
    (if pyTruthy (emptyToNone x) then [(k, (emptyToNone x).getD "")] else [])
      = (if pyTruthy x then [(k, x.getD "")] else []) := by
  cases x with
  | none => rfl
  | some s =>
    by_cases h : s.isEmpty
    · simp [emptyToNone, pyTruthy, h]
    · simp [emptyToNone, pyTruthy, h]

theorem mem_map_fst_block {c : Bool} {k v x : String} :
    (x ∈ List.map Prod.fst (if c then [(k, v)] else [])) ↔ (c = true ∧ x = k) := by
  cases c <;> simp

theorem mem_insertSorted (p q : String × String) (l : List (String × String)) :
    p ∈ insertSorted q l ↔ p = q ∨ p ∈ l := by
  induction l with
  | nil => simp [insertSorted]
  | cons r rest ih =>
    simp only [insertSorted]
    split
    · simp only [List.mem_cons, ih]
      tauto
    · simp only [List.mem_cons]

theorem mem_sortPairs (p : String × String) (l : List (String × String)) :
    p ∈ sortPairs l ↔ p ∈ l := by
  induction l with
  | nil => simp [sortPairs]
  | cons q rest ih =>
    simp only [sortPairs, mem_insertSorted, ih, List.mem_cons]

theorem mem_map_fst_sortPairs (x : String) (l : List (String × String)) :
    x ∈ (sortPairs l).map Prod.fst ↔ x ∈ condKeys l := by
  simp only [condKeys, List.mem_map]
  constructor
  · rintro ⟨p, hp, rfl⟩
    exact ⟨p, (mem_sortPairs p l).mp hp, rfl⟩
  · rintro ⟨p, hp, rfl⟩
    exact ⟨p, (mem_sortPairs p l).mpr hp, rfl⟩

theorem mem_condKeys_matchRule (a : MatchRuleArgs) (k : String) :
    k ∈ condKeys (matchRuleConditions a) ↔
      ((pyTruthy a.type = true ∧ k = "type")
        ∨ (pyTruthy a.sender = true ∧ k = "sender")
        ∨ (pyTruthy a.interface = true ∧ k = "interface")
        ∨ (pyTruthy a.member = true ∧ k = "member")
        ∨ (pyTruthy a.path = true ∧ k = "path")
        ∨ (pyTruthy a.path_namespace = true ∧ k = "path_namespace")
        ∨ (pyTruthy a.destination = true ∧ k = "destination")
        ∨ (a.eavesdrop = true ∧ k = "eavesdrop")) := by
  simp [matchRuleConditions, condKeys, List.map_append, List.mem_append,
    mem_map_fst_block, or_assoc]

/-- Claim C4: the source MatchRule.__init__ contains no exclusivity check, so
constructing a rule with both path and path_namespace set succeeds and the
constructed rule holds both conditions at once, refuting the claim at a
concrete input. -/
theorem matchrule_both_path_conditions_counterexample :
    (matchRuleInit ⟨none, none, none, none, some "/a", some "/b", none, false⟩).isOk = true
    ∧ "path" ∈ condKeys
        (matchRuleConditions ⟨none, none, none, none, some "/a", some "/b", none, false⟩)
    ∧ "path_namespace" ∈ condKeys
        (matchRuleConditions ⟨none, none, none, none, some "/a", some "/b", none, false⟩) := by
  refine ⟨rfl, ?_, ?_⟩ <;> decide

/-- Claim C4 (amended): constructing a MatchRule with both the path condition
and the path_namespace condition set raises no error; the construction
succeeds and the resulting rule records both conditions. -/
theorem matchrule_both_path_conditions_recorded (a : MatchRuleArgs)
    (hp : pyTruthy a.path = true) (hpn : pyTruthy a.path_namespace = true) :
    matchRuleInit a = .ok (matchRuleConditions a)
    ∧ "path" ∈ condKeys (matchRuleConditions a)
    ∧ "path_namespace" ∈ condKeys (matchRuleConditions a) := by
  refine ⟨rfl, ?_, ?_⟩ <;>
    simp [mem_condKeys_matchRule, hp, hpn]

theorem matchrule_both_path_conditions_recorded_witness :
    matchRuleInit ⟨none, none, none, none, some "/x", some "/y", none, true⟩
        = .ok (matchRuleConditions ⟨none, none, none, none, some "/x", some "/y", none, true⟩)
    ∧ "path" ∈ condKeys
        (matchRuleConditions ⟨none, none, none, none, some "/x", some "/y", none, true⟩)
    ∧ "path_namespace" ∈ condKeys
        (matchRuleConditions ⟨none, none, none, none, some "/x", some "/y", none, true⟩) :=
  matchrule_both_path_conditions_recorded _ (by decide) (by decide)

/-- Claim C10: a keyword condition given as the empty string is silently
omitted (Python truthiness), exactly as if the argument had been None: the
rule built from the normalised arguments is identical, the key is recorded in
no condition, and no serialised key=value part is produced for it; likewise
eavesdrop=False adds no condition. -/
theorem matchrule_empty_string_omitted (a : MatchRuleArgs) :
    matchRuleConditions (normEmptyArgs a) = matchRuleConditions a
    ∧ (a.type = some "" → "type" ∉ condKeys (matchRuleConditions a)
        ∧ "type" ∉ (sortPairs (matchRuleConditions a)).map Prod.fst)
    ∧ (a.sender = some "" → "sender" ∉ condKeys (matchRuleConditions a)
        ∧ "sender" ∉ (sortPairs (matchRuleConditions a)).map Prod.fst)
    ∧ (a.interface = some "" → "interface" ∉ condKeys (matchRuleConditions a)
        ∧ "interface" ∉ (sortPairs (matchRuleConditions a)).map Prod.fst)
    ∧ (a.member = some "" → "member" ∉ condKeys (matchRuleConditions a)
        ∧ "member" ∉ (sortPairs (matchRuleConditions a)).map Prod.fst)
    ∧ (a.path = some "" → "path" ∉ condKeys (matchRuleConditions a)
        ∧ "path" ∉ (sortPairs (matchRuleConditions a)).map Prod.fst)
    ∧ (a.path_namespace = some "" → "path_namespace" ∉ condKeys (matchRuleConditions a)
        ∧ "path_namespace" ∉ (sortPairs (matchRuleConditions a)).map Prod.fst)
    ∧ (a.destination = some "" → "destination" ∉ condKeys (matchRuleConditions a)
        ∧ "destination" ∉ (sortPairs (matchRuleConditions a)).map Prod.fst)
    ∧ (a.eavesdrop = false → "eavesdrop" ∉ condKeys (matchRuleConditions a)
        ∧ "eavesdrop" ∉ (sortPairs (matchRuleConditions a)).map Prod.fst) := by
  refine ⟨?_, ?_, ?_, ?_, ?_, ?_, ?_, ?_, ?_⟩
  · show matchRuleConditions (normEmptyArgs a) = matchRuleConditions a
    simp only [matchRuleConditions, normEmptyArgs, conditionBlock_emptyToNone]
  all_goals
    intro h
    first
    | (have hF : pyTruthy a.type = false := by rw [h]; decide
       have hk : "type" ∉ condKeys (matchRuleConditions a) := by
         rw [mem_condKeys_matchRule]; simp [hF]
       exact ⟨hk, by rw [mem_map_fst_sortPairs]; exact hk⟩)
    | (have hF : pyTruthy a.sender = false := by rw [h]; decide
       have hk : "sender" ∉ condKeys (matchRuleConditions a) := by
         rw [mem_condKeys_matchRule]; simp [hF]
       exact ⟨hk, by rw [mem_map_fst_sortPairs]; exact hk⟩)
    | (have hF : pyTruthy a.interface = false := by rw [h]; decide
       have hk : "interface" ∉ condKeys (matchRuleConditions a) := by
         rw [mem_condKeys_matchRule]; simp [hF]
       exact ⟨hk, by rw [mem_map_fst_sortPairs]; exact hk⟩)
    | (have hF : pyTruthy a.member = false := by rw [h]; decide
       have hk : "member" ∉ condKeys (matchRuleConditions a) := by
         rw [mem_condKeys_matchRule]; simp [hF]
       exact ⟨hk, by rw [mem_map_fst_sortPairs]; exact hk⟩)
    | (have hF : pyTruthy a.path = false := by rw [h]; decide
       have hk : "path" ∉ condKeys (matchRuleConditions a) := by
         rw [mem_condKeys_matchRule]; simp [hF]
       exact ⟨hk, by rw [mem_map_fst_sortPairs]; exact hk⟩)
    | (have hF : pyTruthy a.path_namespace = false := by rw [h]; decide
       have hk : "path_namespace" ∉ condKeys (matchRuleConditions a) := by
         rw [mem_condKeys_matchRule]; simp [hF]
       exact ⟨hk, by rw [mem_map_fst_sortPairs]; exact hk⟩)
    | (have hF : pyTruthy a.destination = false := by rw [h]; decide
       have hk : "destination" ∉ condKeys (matchRuleConditions a) := by
         rw [mem_condKeys_matchRule]; simp [hF]
       exact ⟨hk, by rw [mem_map_fst_sortPairs]; exact hk⟩)
    | (have hk : "eavesdrop" ∉ condKeys (matchRuleConditions a) := by
         rw [mem_condKeys_matchRule]; simp [h]
       exact ⟨hk, by rw [mem_map_fst_sortPairs]; exact hk⟩)

theorem matchrule_empty_string_omitted_witness :
    "type" ∉ condKeys (matchRuleConditions ⟨some "", none, none, none, none, none, none, false⟩)
    ∧ "eavesdrop" ∉ condKeys
        (matchRuleConditions ⟨some "", none, none, none, none, none, none, false⟩) :=
  ⟨((matchrule_empty_string_omitted
      ⟨some "", none, none, none, none, none, none, false⟩).2.1 rfl).1,
   ((matchrule_empty_string_omitted
      ⟨some "", none, none, none, none, none, none, false⟩).2.2.2.2.2.2.2.2 rfl).1⟩

theorem connAfterSends_outgoing (k : Nat) :
    (connAfterSends k).outgoing_serial = k + 1 := by
  induction k with
  | zero => rfl
  | succ n ih => simp [connAfterSends, connSend, countNext, ih]

theorem autoSerial_eq (k : Nat) : autoSerial k = k + 1 := by
  simp [autoSerial, connSend, countNext, connAfterSends_outgoing]

/-- Claim C2 is false at the wrap point: the send after the one that was
assigned serial 4294967295 (the u32 maximum) is assigned 4294967296, not 1 —
the itertools.count counter is an unbounded Python integer and never wraps. -/
theorem serial_wrap_counterexample :
    autoSerial 4294967295 = 4294967296 ∧ autoSerial 4294967295 ≠ 1 := by
  rw [autoSerial_eq]
  exact ⟨rfl, by decide⟩

/-- Claim C2 (amended): successive send calls without an explicit serial
assign serials 1, 2, 3, … from the unbounded count(start=1) counter: the
serials are strictly increasing for ever, serial 0 is never assigned, the
serials on the wire are exactly 1..k in order, and no wrap-around at the u32
maximum occurs. -/
theorem serials_strictly_increasing_never_zero (k : Nat) :
    autoSerial k = k + 1
    ∧ autoSerial k < autoSerial (k + 1)
    ∧ autoSerial k ≠ 0
    ∧ (connAfterSends k).sentSerials = (List.range k).map (fun i => i + 1) := by
  refine ⟨autoSerial_eq k, ?_, ?_, ?_⟩
  · rw [autoSerial_eq, autoSerial_eq]
    omega
  · rw [autoSerial_eq]
    omega
  · induction k with
    | zero => rfl
    | succ n ih =>
      have hs : autoSerial n = n + 1 := autoSerial_eq n
      simp only [connAfterSends, connSend, countNext, List.range_succ, List.map_append,
        List.map_cons, List.map_nil]
      rw [ih, connAfterSends_outgoing]

theorem crlfSplitOnce_length (l : List Char) :
    ∀ a b, crlfSplitOnce l = some (a, b) → l.length = a.length + b.length + 2 := by
  induction l with
  | nil => intro a b h; simp [crlfSplitOnce] at h
  | cons c rest ih =>
    intro a b h
    cases rest with
    | nil => simp [crlfSplitOnce] at h
    | cons d rest2 =>
      simp only [crlfSplitOnce] at h
      split at h
      · rw [Option.some.injEq, Prod.mk.injEq] at h
        obtain ⟨rfl, rfl⟩ := h
        simp
      · rw [Option.map_eq_some'] at h
        obtain ⟨pr, hpr, heq⟩ := h
        rw [Prod.mk.injEq] at heq
        obtain ⟨rfl, rfl⟩ := heq
        have hlen := ih pr.1 pr.2 (by rw [hpr])
        simp only [List.length_cons] at hlen ⊢
        omega

/-- Claim C6 (code bug): the feed loop's condition tests the freshly fed
chunk for CRLF instead of the accumulated buffer, so the parser is not
chunking-independent.  Feeding the server's OK line one byte at a time leaves
the parser unauthenticated with the whole line stuck in its buffer, while the
same bytes in a single chunk authenticate it; and as a by-product, a
single-chunk rejection line crashes feed with ValueError (modelled none)
because the loop re-runs on a buffer with no CRLF left. -/
theorem sasl_feed_chunking_bug :
    (feedAll saslInit [['O'], ['K'], [' '], ['1'], ['\r'], ['\n']]
        = some ⟨['O', 'K', ' ', '1', '\r', '\n'], false, none⟩)
    ∧ (saslInit.feed ['O', 'K', ' ', '1', '\r', '\n'] = some ⟨[], true, none⟩)
    ∧ (saslInit.feed ['O', 'K', ' ', '1', '\r', '\n', 'X', 'Y']
        = some ⟨['X', 'Y'], true, none⟩)
    ∧ (saslInit.feed ['R', 'E', 'J', '\r', '\n'] = none) := by
  refine ⟨?_, ?_, ?_, ?_⟩ <;>
    simp [feedAll, SASLParser.feed, feedLoop, saslInit, crlfSplitOnce, process_line,
      List.isPrefixOf]

theorem runFDOps_sentinel (ops : List FDOp) :
    ∀ s : Int, (s = WFD_CLOSED ∨ s = WFD_CONVERTED) →
      (runFDOps s ops).2 = [] := by
  induction ops with
  | nil => intro s _; rfl
  | cons op rest ih =>
    intro s hs
    have hstep : (fdStep s op).closed = []
        ∧ ((fdStep s op).state = WFD_CLOSED ∨ (fdStep s op).state = WFD_CONVERTED) := by
      rcases hs with rfl | rfl <;> cases op <;>
        simp [fdStep, wfdClose, wfdToRawFd, wfdToFile, wfdToSocket, wfdDel,
          WFD_CLOSED, WFD_CONVERTED]
    simp only [runFDOps, hstep.1, List.nil_append]
    exact ih _ hstep.2

/-- Claim C7 is false for to_raw_fd: converting a wrapper that was already
closed succeeds (no exception), returns the _CLOSED sentinel and marks the
wrapper converted, instead of failing outside the open state. -/
theorem wrappedfd_convert_after_close_counterexample :
    (wfdToRawFd (wfdClose 5).state).1.raised = none
    ∧ (wfdToRawFd (wfdClose 5).state).1.state = WFD_CONVERTED
    ∧ (wfdToRawFd (wfdClose 5).state).2 = WFD_CLOSED := by
  refine ⟨rfl, rfl, ?_⟩
  decide

/-- Claim C7 (amended): for a wrapper holding a real descriptor, any sequence
of operations closes the underlying descriptor at most once (and never any
other descriptor); close() closes on first call, is a no-op when already
closed and raises RuntimeError after conversion; to_raw_fd succeeds from
every state — the source performs no openness check — marking the wrapper
converted and returning the slot value; to_file and to_socket convert from
the open state but fail on a closed or converted wrapper only through the
OS-level negative-fd error, leaving the slot unchanged; finalisation of a
still-open wrapper warns and closes it, and does nothing otherwise. -/
theorem wrappedfd_one_shot (s : Int) (ops : List FDOp) (h : 0 ≤ s) :
    ((runFDOps s ops).2 = [] ∨ (runFDOps s ops).2 = [s])
    ∧ wfdClose s = ⟨WFD_CLOSED, [s], false, none⟩
    ∧ wfdClose WFD_CLOSED = ⟨WFD_CLOSED, [], false, none⟩
    ∧ ((wfdClose WFD_CONVERTED).raised.isSome = true
        ∧ (wfdClose WFD_CONVERTED).closed = [])
    ∧ (∀ t : Int, (wfdToRawFd t).1 = ⟨WFD_CONVERTED, [], false, none⟩
        ∧ (wfdToRawFd t).2 = t)
    ∧ wfdToFile s = ⟨WFD_CONVERTED, [], false, none⟩
    ∧ wfdToSocket s = ⟨WFD_CONVERTED, [], false, none⟩
    ∧ ((wfdToFile WFD_CLOSED).raised.isSome = true
        ∧ (wfdToFile WFD_CLOSED).state = WFD_CLOSED)
    ∧ ((wfdToSocket WFD_CONVERTED).raised.isSome = true
        ∧ (wfdToSocket WFD_CONVERTED).state = WFD_CONVERTED)
    ∧ wfdDel s = ⟨WFD_CLOSED, [s], true, none⟩
    ∧ wfdDel WFD_CLOSED = ⟨WFD_CLOSED, [], false, none⟩
    ∧ wfdDel WFD_CONVERTED = ⟨WFD_CONVERTED, [], false, none⟩ := by
  have hne1 : ¬ (s = WFD_CLOSED) := by simp [WFD_CLOSED]; omega
  have hne2 : ¬ (s = WFD_CONVERTED) := by simp [WFD_CONVERTED]; omega
  have hnneg : ¬ (s < 0) := by omega
  refine ⟨?_, ?_, ?_, ?_, ?_, ?_, ?_, ?_, ?_, ?_, ?_, ?_⟩
  · cases ops with
    | nil => exact Or.inl rfl
    | cons op rest =>
      have hstep : ((fdStep s op).closed = [] ∨ (fdStep s op).closed = [s])
          ∧ ((fdStep s op).state = WFD_CLOSED ∨ (fdStep s op).state = WFD_CONVERTED) := by
        cases op <;>
          simp [fdStep, wfdClose, wfdToRawFd, wfdToFile, wfdToSocket, wfdDel,
            hne1, hne2, hnneg, h]
      have hrest := runFDOps_sentinel rest _ hstep.2
      rcases hstep.1 with hc | hc <;>
        simp [runFDOps, hc, hrest]
  · simp [wfdClose, hne1, hne2]
  · simp [wfdClose]
  · simp [wfdClose, WFD_CLOSED, WFD_CONVERTED]
  · intro t; exact ⟨rfl, rfl⟩
  · simp [wfdToFile, hnneg]
  · simp [wfdToSocket, hnneg]
  · simp [wfdToFile, WFD_CLOSED]
  · simp [wfdToSocket, WFD_CONVERTED]
  · simp [wfdDel, h]
  · simp [wfdDel, WFD_CLOSED]
  · simp [wfdDel, WFD_CONVERTED]

theorem wrappedfd_one_shot_witness :
    (runFDOps 5 [FDOp.close, FDOp.to_raw_fd, FDOp.finalize]).2 = []
    ∨ (runFDOps 5 [FDOp.close, FDOp.to_raw_fd, FDOp.finalize]).2 = [5] :=
  (wrappedfd_one_shot 5 [FDOp.close, FDOp.to_raw_fd, FDOp.finalize] (by decide)).1

/-- Claim C3 is false for the threading adapter: stopping the router with a
pending waiter leaves its future pending — it is not woken with
NoReplyError. -/
theorem threading_waiters_not_woken_counterexample :
    threadingReceiverStop [(3, FutState.pending)] = [(3, FutState.pending)]
    ∧ futIsNoReplyFailure FutState.pending = false := ⟨rfl, rfl⟩

/-- Claim C3 (amended): when the receiver loop terminates with method-call
waiters pending, the asyncio router and the trio requester wake every
pending waiter with a NoReplyError; the threading router does not — its
receiver swallows ReceiveStopped and returns without completing any pending
future. -/
theorem receiver_stop_wakes_waiters (futs : List (Nat × FutState))
    (h : ∀ sf ∈ futs, sf.2 = FutState.pending) :
    asyncioReceiverWakeAll futs
        = some (futs.map
            (fun sf => (sf.1, FutState.failed (.noReplyError "Reply receiver stopped"))))
    ∧ trioReceiverWakeAll futs
        = futs.map
            (fun sf => (sf.1, FutState.failed (.noReplyError "Reply receiver stopped")))
    ∧ threadingReceiverStop futs = futs := by
  refine ⟨?_, rfl, rfl⟩
  induction futs with
  | nil => rfl
  | cons sf rest ih =>
    have hsf : sf.2 = FutState.pending := h sf (List.mem_cons_self sf rest)
    have hrest := ih (fun q hq => h q (List.mem_cons_of_mem sf hq))
    simp only [asyncioReceiverWakeAll, List.mapM_cons, hsf, List.map_cons] at hrest ⊢
    rw [hrest]
    rfl

theorem receiver_stop_wakes_waiters_witness :
    asyncioReceiverWakeAll [(1, FutState.pending)]
        = some [(1, FutState.failed (.noReplyError "Reply receiver stopped"))]
    ∧ trioReceiverWakeAll [(1, FutState.pending)]
        = [(1, FutState.failed (.noReplyError "Reply receiver stopped"))]
    ∧ threadingReceiverStop [(1, FutState.pending)] = [(1, FutState.pending)] :=
  receiver_stop_wakes_waiters [(1, FutState.pending)] (by decide)

/-- Claim C5 is false for the blocking adapter: send_and_get_reply performs
no message-type check — a signal message is serialised and sent (here with
serial 1) instead of being rejected with an error before sending. -/
theorem blocking_sends_non_method_call_counterexample :
    signalMsg.header.message_type ≠ MessageType.method_call
    ∧ (blockingSendAndGetReply 1 signalMsg []).1 = [(signalMsg, 1)] := by
  exact ⟨by decide, rfl⟩

/-- Claim C5 (amended): for a message whose type is not method_call, the
asyncio router rejects it with TypeError before sending anything, but the
blocking and threading adapters perform no type check: both draw a serial
and send the message regardless. -/
theorem send_and_get_reply_type_check (st : AsyncioRouterState) (m : Message)
    (h : m.header.message_type ≠ MessageType.method_call) :
    asyncioSendAndGetReplyStart st m
        = ([], .error (.typeError "Only method call messages have replies"))
    ∧ (∀ ctr incoming, (blockingSendAndGetReply ctr m incoming).1 = [(m, ctr)])
    ∧ (∀ ctr futs, (threadingSendAndGetReplyStart ctr futs m).1 = [(m, ctr)]) := by
  refine ⟨?_, fun ctr incoming => rfl, fun ctr futs => rfl⟩
  simp [asyncioSendAndGetReplyStart, h]

theorem send_and_get_reply_type_check_witness :
    asyncioSendAndGetReplyStart ⟨1, false, []⟩ signalMsg
        = ([], .error (.typeError "Only method call messages have replies"))
    ∧ (∀ ctr incoming, (blockingSendAndGetReply ctr signalMsg incoming).1 = [(signalMsg, ctr)])
    ∧ (∀ ctr futs,
        (threadingSendAndGetReplyStart ctr futs signalMsg).1 = [(signalMsg, ctr)]) :=
  send_and_get_reply_type_check ⟨1, false, []⟩ signalMsg (by decide)

theorem dictGetN_dictSetN_self {α : Type} (d : List (Nat × α)) (k : Nat) (v : α) :
    dictGetN (dictSetN d k v) k = some v := by
  induction d with
  | nil => simp [dictSetN, dictGetN]
  | cons p rest ih =>
    by_cases h : p.1 = k
    · simp [dictSetN, dictGetN, h]
    · simp [dictSetN, dictGetN, h, ih]

theorem filter_dictSetN_fresh {α : Type} (d : List (Nat × α)) (k : Nat) (v : α)
    (h : ∀ p ∈ d, p.1 ≠ k) :
    (dictSetN d k v).filter (fun p => p.1 ≠ k) = d := by
  induction d with
  | nil => simp [dictSetN]
  | cons p rest ih =>
    have hp : p.1 ≠ k := h p (List.mem_cons_self p rest)
    have hrest := ih (fun q hq => h q (List.mem_cons_of_mem p hq))
    simp only [dictSetN, if_neg hp, List.filter_cons]
    simp only [hp, decide_not, decide_eq_false_iff_not, not_false_eq_true, decide_eq_true_eq,
      if_pos, Bool.not_eq_true]
    simp [hp]
    simpa using hrest

/-- Claim C9: in the blocking adapter, remove_filter after add_filter
returns the registered channel, deletes the registration (restoring the
previous filters dict, so the rule receives no subsequent messages), and the
returned id was fresh; but in the asyncio adapter remove_filter
unconditionally raises AttributeError — it pops from the filter-id counter
instead of the filters dict — leaving the registration in place. -/
theorem remove_filter_contract {R C : Type} (st : FilterState R C) (rule : R) (ch : C)
    (hkeys : ∀ p ∈ st.filters, p.1 < st.filter_ids) :
    blockingRemoveFilter (addFilter st rule ch).1 (addFilter st rule ch).2
        = .ok (⟨st.filters, st.filter_ids + 1⟩, ch)
    ∧ (addFilter st rule ch).2 ∉ st.filters.map Prod.fst
    ∧ (∀ (st2 : FilterState R C) (fid2 : Nat),
        asyncioRemoveFilter st2 fid2
          = .error (.attributeError "count object has no attribute pop")) := by
  have hfresh : ∀ p ∈ st.filters, p.1 ≠ st.filter_ids := by
    intro p hp
    exact Nat.ne_of_lt (hkeys p hp)
  refine ⟨?_, ?_, fun st2 fid2 => rfl⟩
  · simp only [blockingRemoveFilter, addFilter, dictPopN,
      dictGetN_dictSetN_self, filter_dictSetN_fresh st.filters st.filter_ids (rule, ch) hfresh]
  · simp only [addFilter, List.mem_map]
    rintro ⟨p, hp, hfst⟩
    exact hfresh p hp hfst

theorem remove_filter_contract_witness :
    blockingRemoveFilter
        (addFilter (⟨[], 0⟩ : FilterState Nat Nat) 7 9).1
        (addFilter (⟨[], 0⟩ : FilterState Nat Nat) 7 9).2
      = .ok (⟨[], 1⟩, 9)
    ∧ (addFilter (⟨[], 0⟩ : FilterState Nat Nat) 7 9).2 ∉ ([] : List (Nat × Nat × Nat)).map Prod.fst
    ∧ (∀ (st2 : FilterState Nat Nat) (fid2 : Nat),
        asyncioRemoveFilter st2 fid2
          = .error (.attributeError "count object has no attribute pop")) :=
  remove_filter_contract (⟨[], 0⟩ : FilterState Nat Nat) 7 9 (by simp)

theorem dictGet_dictSet_self (d : List (HeaderFields × FieldVal)) (k : HeaderFields)
    (v : FieldVal) : dictGet (dictSet d k v) k = some v := by
  induction d with
  | nil => simp [dictSet, dictGet]
  | cons p rest ih =>
    by_cases h : p.1 = k
    · simp [dictSet, dictGet, h]
    · simp [dictSet, dictGet, h, ih]

theorem dictGet_dictSet_ne (d : List (HeaderFields × FieldVal)) (k k' : HeaderFields)
    (v : FieldVal) (h : k' ≠ k) : dictGet (dictSet d k v) k' = dictGet d k' := by
  induction d with
  | nil => simp [dictSet, dictGet, h, Ne.symm h]
  | cons p rest ih =>
    by_cases hp : p.1 = k
    · subst hp
      simp [dictSet, dictGet, Ne.symm h, h, ih]
    · by_cases hp' : p.1 = k'
      · simp [dictSet, dictGet, hp, hp', h]
      · simp [dictSet, dictGet, hp, hp', h, ih]

/-- Claim C8: each wrapper constructor establishes its kind's header
invariants — new_method_call is a method_call with path, destination and
member set, failing with ValueError when bus_name is None; new_method_return
and new_error carry the parent's serial as reply_serial, new_error also the
error name; new_signal is a signal with path, interface and member set,
failing with ValueError when the emitter's interface is None. -/
theorem message_constructors_spec (ro : DBusAddress) (method : String)
    (sig : Option String) (body : List DBusValue) (parent : Message) (ename : String)
    (em : DBusAddress) (signm : String) :
    (ro.bus_name = none → new_method_call ro method sig body
        = .error (.valueError "bus_name cannot be None for method calls"))
    ∧ (∀ m, new_method_call ro method sig body = .ok m →
        m.header.message_type = MessageType.method_call
        ∧ dictGet m.header.fields .path = some (.str ro.object_path)
        ∧ dictGet m.header.fields .destination = Option.map FieldVal.str ro.bus_name
        ∧ dictGet m.header.fields .member = some (.str method))
    ∧ ((new_method_return parent sig body).header.message_type = MessageType.method_return
        ∧ dictGet (new_method_return parent sig body).header.fields .reply_serial
            = some (.int parent.header.serial))
    ∧ ((new_error parent ename sig body).header.message_type = MessageType.error
        ∧ dictGet (new_error parent ename sig body).header.fields .reply_serial
            = some (.int parent.header.serial)
        ∧ dictGet (new_error parent ename sig body).header.fields .error_name
            = some (.str ename))
    ∧ (em.interface = none → new_signal em signm sig body
        = .error (.valueError "interface cannot be None for signals"))
    ∧ (∀ m, new_signal em signm sig body = .ok m →
        m.header.message_type = MessageType.signal
        ∧ dictGet m.header.fields .path = some (.str em.object_path)
        ∧ dictGet m.header.fields .interface = Option.map FieldVal.str em.interface
        ∧ dictGet m.header.fields .member = some (.str signm)) := by
  refine ⟨?_, ?_, ?_, ?_, ?_, ?_⟩
  · intro hbn
    simp [new_method_call, hbn]
  · intro m hm
    cases hbn : ro.bus_name with
    | none => simp [new_method_call, hbn] at hm
    | some bn =>
      rw [new_method_call] at hm
      simp only [hbn] at hm
      rw [Except.ok.injEq] at hm
      subst hm
      cases hi : ro.interface <;> cases hsig : sig <;>
        simp [hi, hsig, new_header, dictGet_dictSet_self, dictGet_dictSet_ne]
  · cases hsig : sig <;>
      simp [new_method_return, new_header, hsig, dictGet_dictSet_self, dictGet_dictSet_ne]
  · cases hsig : sig <;>
      simp [new_error, new_header, hsig, dictGet_dictSet_self, dictGet_dictSet_ne]
  · intro hi
    simp [new_signal, hi]
  · intro m hm
    cases hi : em.interface with
    | none => simp [new_signal, hi] at hm
    | some i =>
      rw [new_signal] at hm
      simp only [hi] at hm
      rw [Except.ok.injEq] at hm
      subst hm
      cases hsig : sig <;>
        simp [hi, hsig, new_header, dictGet_dictSet_self, dictGet_dictSet_ne]

theorem message_constructors_spec_witness :
    (∀ m, new_method_call ⟨"/org/jeepney", some "io.test", none⟩ "Ping" none [] = .ok m →
        m.header.message_type = MessageType.method_call
        ∧ dictGet m.header.fields .path = some (.str "/org/jeepney")
        ∧ dictGet m.header.fields .destination = Option.map FieldVal.str (some "io.test")
        ∧ dictGet m.header.fields .member = some (.str "Ping"))
    ∧ new_signal ⟨"/org/jeepney", none, none⟩ "Sig" none []
        = .error (.valueError "interface cannot be None for signals") :=
  ⟨(message_constructors_spec ⟨"/org/jeepney", some "io.test", none⟩ "Ping" none []
      signalMsg "e" ⟨"/org/jeepney", none, none⟩ "Sig").2.1,
   (message_constructors_spec ⟨"/org/jeepney", some "io.test", none⟩ "Ping" none []
      signalMsg "e" ⟨"/org/jeepney", none, none⟩ "Sig").2.2.2.2.1 rfl⟩

theorem str_ext {a b : String} (h : a.data = b.data) : a = b := by
  cases a
  cases b
  exact congrArg String.mk h

theorem strIsPrefixOf_iff (a b : String) :
    strIsPrefixOf a b = true ↔ ∃ t : String, b = a ++ t := by
  rw [strIsPrefixOf, List.isPrefixOf_iff_prefix]
  constructor
  · rintro ⟨t, ht⟩
    refine ⟨String.mk t, str_ext ?_⟩
    rw [String.data_append]
    exact ht.symm
  · rintro ⟨t, rfl⟩
    exact ⟨t.data, (String.data_append a t).symm⟩

theorem strIsPrefixOf_append_iff (a mid b : String) :
    strIsPrefixOf (a ++ mid) b = true ↔ ∃ t : String, b = a ++ mid ++ t := by
  rw [strIsPrefixOf_iff]

theorem slashExtends_iff (pre whole : String) :
    slashExtends pre whole = true ↔ ∃ r : String, whole = pre ++ "/" ++ r := by
  rw [slashExtends, Bool.and_eq_true]
  constructor
  · rintro ⟨hpre, hrem⟩
    obtain ⟨u, hu⟩ := List.isPrefixOf_iff_prefix.mp hpre
    have hdrop : whole.data.drop pre.data.length = u := by
      rw [← hu, List.drop_left]
    rw [hdrop] at hrem
    match u, hrem with
    | c :: tail, hrem =>
      have hc : c = '/' := eq_of_beq hrem
      subst hc
      refine ⟨String.mk tail, str_ext ?_⟩
      have hdata : (pre ++ "/" ++ String.mk tail).data = pre.data ++ ('/' :: tail) := by
        rw [String.data_append, String.data_append]
        simp
      rw [hdata, ← hu]
  · rintro ⟨r, rfl⟩
    have hdata : (pre ++ "/" ++ r).data = pre.data ++ ('/' :: r.data) := by
      rw [String.data_append, String.data_append]
      simp
    constructor
    · rw [List.isPrefixOf_iff_prefix, hdata]
      exact ⟨'/' :: r.data, rfl⟩
    · rw [hdata, List.drop_left]
      rfl

theorem optCond_iff (cond field : Option String) :
    optCond cond field = true ↔ ∀ v, cond = some v → field = some v := by
  cases cond with
  | none => simp [optCond]
  | some v => simp [optCond]

theorem typeCondB_iff (cond : Option String) (mt : MessageType) :
    typeCondB cond mt = true ↔ ∀ t, cond = some t → mt.name = t := by
  cases cond with
  | none => simp [typeCondB]
  | some t => simp [typeCondB]

theorem pathNsMatches_iff (ns p : String) :
    pathNsMatches ns p = true
      ↔ (if ns = "" then p = "/" else p = ns ∨ ∃ rest, p = ns ++ "/" ++ rest) := by
  rw [pathNsMatches]
  by_cases hns : ns = ""
  · simp [hns]
  · simp only [hns, if_false, Bool.or_eq_true, beq_iff_eq]
    rw [strIsPrefixOf_append_iff]

theorem pathNsCondB_iff (cond field : Option String) :
    pathNsCondB cond field = true
      ↔ ∀ ns, cond = some ns → ∃ p, field = some p
          ∧ (if ns = "" then p = "/" else p = ns ∨ ∃ rest, p = ns ++ "/" ++ rest) := by
  cases cond with
  | none => simp [pathNsCondB]
  | some ns =>
    cases field with
    | none => simp [pathNsCondB]
    | some p => simp [pathNsCondB, pathNsMatches_iff]

theorem argCondMatches_iff (argno : Nat) (kind : ArgKind) (v : String)
    (body : List DBusValue) :
    argCondMatches argno kind v body = true ↔ ArgCondRef argno kind v body := by
  rw [argCondMatches, ArgCondRef]
  cases harg : body.get? argno with
  | none => simp
  | some val =>
    cases val with
    | other tag => simp
    | str s =>
      cases kind with
      | string =>
        simp only [Option.some.injEq, DBusValue.str.injEq, beq_iff_eq]
        constructor
        · intro h
          exact ⟨s, rfl, h⟩
        · rintro ⟨s2, h2, h3⟩
          subst h2
          exact h3
      | path =>
        simp only [Option.some.injEq, DBusValue.str.injEq, Bool.or_eq_true, beq_iff_eq,
          slashExtends_iff]
        constructor
        · intro h
          refine ⟨s, rfl, ?_⟩
          tauto
        · rintro ⟨s2, h2, h3⟩
          subst h2
          tauto
      | nspace =>
        simp only [Option.some.injEq, DBusValue.str.injEq, Bool.or_eq_true, beq_iff_eq,
          strIsPrefixOf_append_iff]
        constructor
        · intro h
          refine ⟨s, rfl, ?_⟩
          tauto
        · rintro ⟨s2, h2, h3⟩
          subst h2
          tauto

/-- Claim C1: the match-rule engine predicate coincides, for every rule and
every message, with the reference truth table over the header-field
conditions and the argument conditions. -/
theorem match_engine_eq_truth_table (r : SpecMatchRule) (m : Message) :
    r.matches m = true ↔ MatchRef r m := by
  rw [SpecMatchRule.matches, MatchRef]
  simp only [Bool.and_eq_true, List.all_eq_true, typeCondB_iff, optCond_iff,
    pathNsCondB_iff, argCondMatches_iff]
  tauto

end Jeepney
